import Mathlib

/-! The user data-access object of webook (`internal/repository/dao/user.go`).

A shallow embedding of `GormUserDAO` and of the two constructors, together with the
properties of its six operations.

The file has three layers.

* The record types of the source (`NullString`, `User`) and the Go values the methods
  exchange with the database layer (`StmtError`, `Error`, `Context`).
* The methods of `GormUserDAO`, written against an arbitrary database handle `DB σ`:
  a handle is the triple of statements the source issues (`Create`, `Updates`, `First`),
  each a state transformer on the database state `σ`. Whatever the ORM and the server
  do, cancellation and connection failures included, is a behaviour of such a handle.
* `gormDB sc`, a handle on a concrete table: the documented behaviour of the ORM and of
  the server for the three statements when the statement runs to completion. What the
  source does not fix about the table (the collation of its string columns, the sizes of
  its columns) is the parameter `sc`.
-/

set_option autoImplicit false
set_option maxRecDepth 8192

namespace dao

/-! ## Records of the source -/

/-- The type `sql.NullString`: a string column that may be NULL (`Valid = false`). -/
structure NullString where
  String : String
  Valid : Bool
deriving DecidableEq, Repr

/-- The zero value `sql.NullString{}`. -/
def NullString.zero : NullString := { String := "", Valid := false }

/-- Go's `reflect.Value.IsZero` on a `sql.NullString`: both fields hold their zero value. -/
def NullString.isZero (n : NullString) : Bool := n.String == "" && !n.Valid

/-- The struct `User` of the source, field for field (`int64` fields are integers; the
source performs no arithmetic on them). -/
structure User where
  Id : Int
  Email : NullString
  Phone : NullString
  Name : NullString
  Birthday : String
  Resume : String
  Password : String
  WechatUnionID : NullString
  WechatOpenID : NullString
  Ctime : Int
  Utime : Int
deriving DecidableEq, Repr

/-- The zero value `User{}`, which is what `var u User` declares. -/
def User.zero : User :=
  { Id := 0, Email := NullString.zero, Phone := NullString.zero, Name := NullString.zero,
    Birthday := "", Resume := "", Password := "",
    WechatUnionID := NullString.zero, WechatOpenID := NullString.zero, Ctime := 0, Utime := 0 }

/-! ## Errors, contexts, panics -/

/-- The non-nil values the field `.Error` of a finished gorm statement can hold.
`MySQLError` is a `*mysql.MySQLError` (its `Number` is a `uint16`); `wrapped` is any error
whose dynamic type is another one and that wraps `inner`, so that the type assertion
`err.(*mysql.MySQLError)` fails on it. -/
inductive StmtError where
  | MySQLError (Number : Nat) (Message : String)
  | ErrRecordNotFound
  | Canceled
  | DeadlineExceeded
  | wrapped (text : String) (inner : StmtError)
  | other (text : String)
deriving DecidableEq, Repr

/-- The non-nil `error` values a method of the store returns: one of the two values this
package creates with `errors.New`, or the error of the statement itself. The two package
values are fresh allocations of this package, which the database layer does not import,
hence distinct from every `StmtError`. A Go `error` is an `Option Error`, `none` being
`nil`. -/
inductive Error where
  | ErrUserDuplicateEmail
  | ErrUserDuplicateName
  | stmt (e : StmtError)
deriving DecidableEq, Repr

/-- A Go `error` coming from a statement, seen as the `error` the method returns. -/
def ofStmt (err : Option StmtError) : Option Error := err.map Error.stmt

/-- The package variable `ErrUserNotFound = gorm.ErrRecordNotFound`. -/
def ErrUserNotFound : Error := Error.stmt StmtError.ErrRecordNotFound

/-- A `context.Context`. The store only hands it on to the database layer; whether it is
cancelled or expires while a statement runs is seen in the error of that statement. -/
structure Context where
  id : Nat
deriving DecidableEq, Repr

/-- The run-time panic of the source: a method called through a nil `*gorm.DB`. -/
inductive Panic where
  | nilPointerDereference
deriving DecidableEq, Repr

/-- Equality of two outcomes of a method can be computed. -/
instance decEqExcept {ε α : Type} [DecidableEq ε] [DecidableEq α] : DecidableEq (Except ε α) :=
  fun a b =>
    match a, b with
    | Except.error x, Except.error y =>
      if h : x = y then isTrue (congrArg Except.error h)
      else isFalse (fun h' => h (Except.error.inj h'))
    | Except.ok x, Except.ok y =>
      if h : x = y then isTrue (congrArg Except.ok h)
      else isFalse (fun h' => h (Except.ok.inj h'))
    | Except.error _, Except.ok _ => isFalse (fun h' => Except.noConfusion h')
    | Except.ok _, Except.error _ => isFalse (fun h' => Except.noConfusion h')

/-! ## The database handle -/

/-- The `Where` conditions the source writes: `"id = ?"`, `"phone=?"`, `"email = ?"`,
`"wechat_open_id=?"`, each with its argument. -/
inductive Cond where
  | id (v : Int)
  | phone (v : String)
  | email (v : String)
  | wechat_open_id (v : String)
deriving DecidableEq, Repr

/-- A `*gorm.DB` on the user table, as the three statements the source runs on it. Each
takes the context of `WithContext` and the database state, and gives the value of `.Error`
and the next state.

* `Create ctx u` is `WithContext(ctx).Create(&u)`; the first component is `u` afterwards
  (gorm writes the generated key into it).
* `Updates ctx id v` is `WithContext(ctx).Model(&User{}).Where("id = ?", id).Updates(v)`.
* `First ctx c` is `WithContext(ctx).Where(c).First(&u)` on `var u User`; the first
  component is `u` afterwards. -/
structure DB (σ : Type) where
  Create : Context → User → σ → User × Option StmtError × σ
  Updates : Context → Int → User → σ → Option StmtError × σ
  First : Context → Cond → σ → User × Option StmtError × σ

/-- The type `DBProvider`, `func() *gorm.DB`: a nil function value or a function that
gives a handle, possibly nil. -/
abbrev DBProvider (σ : Type) := Option (Unit → Option (DB σ))

/-- The struct `GormUserDAO`: the handle `db`, nil when absent, and the provider `p`. -/
structure GormUserDAO (σ : Type) where
  db : Option (DB σ)
  p : DBProvider σ

/-- The constructor `NewUserDAOV1(p)`: only `p` is set, `db` keeps its zero value nil. -/
def NewUserDAOV1 {σ : Type} (p : DBProvider σ) : GormUserDAO σ :=
  { db := none, p := p }

/-- The constructor `NewUserDAO(db)`: only `db` is set, `p` keeps its zero value nil. -/
def NewUserDAO {σ : Type} (db : Option (DB σ)) : GormUserDAO σ :=
  { db := db, p := none }

/-! ## The six methods -/

/-- The constant `uniqueConflictsErrNo`. -/
def uniqueConflictsErrNo : Nat := 1062

/-- The method `GormUserDAO.Insert`. `now` is the reading of `time.Now().UnixMilli()`. The method
returns the `error` alone: `u` is a by-value parameter, the key gorm writes into it stays
in the method's own copy. -/
def GormUserDAO.Insert {σ : Type} (ud : GormUserDAO σ) (ctx : Context) (now : Int) (u : User)
    (s : σ) : Except Panic (Option Error) × σ :=
  let u := { u with Utime := now }
  let u := { u with Ctime := now }
  match ud.db with
  | none => (Except.error Panic.nilPointerDereference, s)
  | some db =>
    match db.Create ctx u s with
    | (_, err, s') =>
      match err with
      | some (StmtError.MySQLError number _) =>
        if number == uniqueConflictsErrNo then (Except.ok (some Error.ErrUserDuplicateEmail), s')
        else (Except.ok (ofStmt err), s')
      | _ => (Except.ok (ofStmt err), s')

/-- The method `GormUserDAO.EditByID`. The struct handed to `Updates` sets `Name`, `Birthday` and
`Resume`; every other field holds its zero value. The method reads no clock. -/
def GormUserDAO.EditByID {σ : Type} (ud : GormUserDAO σ) (ctx : Context) (id : Int)
    (name birthday resume : String) (s : σ) : Except Panic (Option Error) × σ :=
  match ud.db with
  | none => (Except.error Panic.nilPointerDereference, s)
  | some db =>
    match db.Updates ctx id
        { User.zero with Name := { String := name, Valid := true }, Birthday := birthday,
                         Resume := resume } s with
    | (err, s') =>
      match err with
      | some (StmtError.MySQLError number _) =>
        if number == uniqueConflictsErrNo then (Except.ok (some Error.ErrUserDuplicateName), s')
        else (Except.ok (ofStmt err), s')
      | _ => (Except.ok (ofStmt err), s')

/-- The common body of the four lookups: `First` under one condition, result and error
returned as they come. -/
def GormUserDAO.findWhere {σ : Type} (ud : GormUserDAO σ) (ctx : Context) (c : Cond)
    (s : σ) : Except Panic (User × Option Error) × σ :=
  match ud.db with
  | none => (Except.error Panic.nilPointerDereference, s)
  | some db =>
    match db.First ctx c s with
    | (u, err, s') => (Except.ok (u, ofStmt err), s')

/-- The method `GormUserDAO.FindByID`. -/
def GormUserDAO.FindByID {σ : Type} (ud : GormUserDAO σ) (ctx : Context) (id : Int)
    (s : σ) : Except Panic (User × Option Error) × σ :=
  ud.findWhere ctx (Cond.id id) s

/-- The method `GormUserDAO.FindByPhone`. -/
def GormUserDAO.FindByPhone {σ : Type} (ud : GormUserDAO σ) (ctx : Context) (phone : String)
    (s : σ) : Except Panic (User × Option Error) × σ :=
  ud.findWhere ctx (Cond.phone phone) s

/-- The method `GormUserDAO.FindByEmail`. -/
def GormUserDAO.FindByEmail {σ : Type} (ud : GormUserDAO σ) (ctx : Context) (email : String)
    (s : σ) : Except Panic (User × Option Error) × σ :=
  ud.findWhere ctx (Cond.email email) s

/-- The method `GormUserDAO.FindByWechat`. -/
def GormUserDAO.FindByWechat {σ : Type} (ud : GormUserDAO σ) (ctx : Context) (openID : String)
    (s : σ) : Except Panic (User × Option Error) × σ :=
  ud.findWhere ctx (Cond.wechat_open_id openID) s

/-! ## Statements seen from outside -/

/-- One statement as the handle receives it. -/
inductive Stmt where
  | Create (ctx : Context) (u : User)
  | Updates (ctx : Context) (id : Int) (v : User)
  | First (ctx : Context) (c : Cond)
deriving DecidableEq, Repr

/-- The handle `db` with a journal: it behaves as `db` does and appends every statement
it receives, with its arguments, to the journal kept next to the state. -/
def DB.traced {σ : Type} (db : DB σ) : DB (σ × List Stmt) :=
  { Create := fun ctx u s =>
      match db.Create ctx u s.1 with
      | (u', err, s') => (u', err, (s', s.2 ++ [Stmt.Create ctx u]))
    Updates := fun ctx id v s =>
      match db.Updates ctx id v s.1 with
      | (err, s') => (err, (s', s.2 ++ [Stmt.Updates ctx id v]))
    First := fun ctx c s =>
      match db.First ctx c s.1 with
      | (u', err, s') => (u', err, (s', s.2 ++ [Stmt.First ctx c])) }

/-! ## The table behind the handle

The behaviour of gorm and of the server for the three statements, for a statement that
runs to completion (server reachable, context live until the answer arrives). The state is
the table: its rows and its auto-increment counter. The source creates no table and
declares neither a collation nor a column size, so the comparison of two strings of a
column and the test whether a string fits a column are parameters of the handle. -/

/-- A row of the table `users`: nullable columns are optional strings. -/
structure Row where
  id : Int
  email : Option String
  phone : Option String
  name : Option String
  birthday : String
  resume : String
  password : String
  wechat_union_id : Option String
  wechat_open_id : Option String
  ctime : Int
  utime : Int
deriving DecidableEq, Repr

/-- The table: its rows in insertion order and the value the auto-increment counter of
the key column offers to the next insert. -/
structure Table where
  rows : List Row
  autoInc : Int
deriving DecidableEq, Repr

/-- The string columns of the table. -/
inductive Column where
  | email
  | phone
  | name
  | birthday
  | resume
  | password
  | wechat_union_id
  | wechat_open_id
deriving DecidableEq, Repr

/-- What is decided where the table is created, outside the source: `same a b` tells
whether the server takes two strings of a column for equal (the collation), `fits c v`
whether it accepts the string `v` for the column `c` (the declared size). -/
structure Schema where
  same : String → String → Bool
  fits : Column → String → Bool

/-- The largest `int64`, the largest key the column `id` (a signed BIGINT) can hold. -/
def int64Max : Int := 9223372036854775807

/-- The method `NullString.Value`: the column value a `sql.NullString` is written as. -/
def sqlValue (n : NullString) : Option String :=
  if n.Valid then some n.String else none

/-- The method `NullString.Scan`: the `sql.NullString` a column value is read into. -/
def sqlScan : Option String → NullString
  | some v => { String := v, Valid := true }
  | none => NullString.zero

/-- The row a struct is written as. -/
def User.toRow (u : User) : Row :=
  { id := u.Id, email := sqlValue u.Email, phone := sqlValue u.Phone, name := sqlValue u.Name,
    birthday := u.Birthday, resume := u.Resume, password := u.Password,
    wechat_union_id := sqlValue u.WechatUnionID, wechat_open_id := sqlValue u.WechatOpenID,
    ctime := u.Ctime, utime := u.Utime }

/-- The struct a row is read into. -/
def Row.toUser (r : Row) : User :=
  { Id := r.id, Email := sqlScan r.email, Phone := sqlScan r.phone,
    Name := sqlScan r.name, Birthday := r.birthday, Resume := r.resume,
    Password := r.password, WechatUnionID := sqlScan r.wechat_union_id,
    WechatOpenID := sqlScan r.wechat_open_id, Ctime := r.ctime, Utime := r.utime }

/-- Two values of a unique column collide when both are present and the server takes them
for equal; NULL collides with nothing. -/
def collides (sc : Schema) (a b : Option String) : Bool :=
  match a, b with
  | some x, some y => sc.same x y
  | _, _ => false

/-- The unique index on which the new row `row` collides with the stored row `r`, if any:
the primary key, then the four unique columns in the order of the struct. -/
def violatedKey (sc : Schema) (row r : Row) : Option String :=
  if row.id == r.id then some "PRIMARY"
  else if collides sc row.email r.email then some "email"
  else if collides sc row.phone r.phone then some "phone"
  else if collides sc row.name r.name then some "name"
  else if collides sc row.wechat_open_id r.wechat_open_id then some "wechat_open_id"
  else none

/-- The error of the server for a uniqueness violation on the index `key`. -/
def duplicateEntry (key : String) : StmtError :=
  StmtError.MySQLError 1062 ("Duplicate entry for key " ++ key)

/-- The error of the server for a string that does not fit its column. -/
def dataTooLong (column : String) : StmtError :=
  StmtError.MySQLError 1406 ("Data too long for column " ++ column)

/-- Whether a column value fits its column; NULL always does. -/
def fitsColumn (sc : Schema) (c : Column) (v : Option String) : Bool :=
  match v with
  | some x => sc.fits c x
  | none => true

/-- The first column, in the order of the table, whose value in `row` does not fit. -/
def misfit (sc : Schema) (row : Row) : Option String :=
  if !fitsColumn sc Column.email row.email then some "email"
  else if !fitsColumn sc Column.phone row.phone then some "phone"
  else if !fitsColumn sc Column.name row.name then some "name"
  else if !sc.fits Column.birthday row.birthday then some "birthday"
  else if !sc.fits Column.resume row.resume then some "resume"
  else if !sc.fits Column.password row.password then some "password"
  else if !fitsColumn sc Column.wechat_union_id row.wechat_union_id then some "wechat_union_id"
  else if !fitsColumn sc Column.wechat_open_id row.wechat_open_id then some "wechat_open_id"
  else none

/-- The statement `Create(&u)`. A zero `Id` takes the value the auto-increment counter
offers, which never exceeds the largest `int64`; a non-zero one is written as given. A
value that does not fit its column is rejected with error 1406 before anything else
happens. A row that collides with a stored row on the primary key or on a unique column is
rejected with error 1062; a key taken from the counter is then spent all the same. Otherwise
the row is appended, the counter moves past its key, and gorm writes the key into `u`. -/
def gormCreate (sc : Schema) (u : User) (t : Table) : User × Option StmtError × Table :=
  let key : Int := if u.Id == 0 then min t.autoInc int64Max else u.Id
  let row : Row := { u.toRow with id := key }
  match misfit sc row with
  | some column => (u, some (dataTooLong column), t)
  | none =>
    match t.rows.findSome? (violatedKey sc row) with
    | some index =>
      (u, some (duplicateEntry index),
        { t with autoInc := if u.Id == 0 then min (key + 1) int64Max else t.autoInc })
    | none =>
      ({ u with Id := key }, none,
        { rows := t.rows ++ [row], autoInc := max t.autoInc (min (key + 1) int64Max) })

/-- The assignments `Updates(v)` makes on a row: with a struct argument gorm assigns the
fields of `v` that are not zero and leaves every other column alone. No field of `User`
is an auto-update-time field (none is named `UpdatedAt` or tagged so). -/
def assignNonZero (v : User) (r : Row) : Row :=
  { id := if v.Id == 0 then r.id else v.Id,
    email := if v.Email.isZero then r.email else sqlValue v.Email,
    phone := if v.Phone.isZero then r.phone else sqlValue v.Phone,
    name := if v.Name.isZero then r.name else sqlValue v.Name,
    birthday := if v.Birthday == "" then r.birthday else v.Birthday,
    resume := if v.Resume == "" then r.resume else v.Resume,
    password := if v.Password == "" then r.password else v.Password,
    wechat_union_id := if v.WechatUnionID.isZero then r.wechat_union_id else sqlValue v.WechatUnionID,
    wechat_open_id := if v.WechatOpenID.isZero then r.wechat_open_id else sqlValue v.WechatOpenID,
    ctime := if v.Ctime == 0 then r.ctime else v.Ctime,
    utime := if v.Utime == 0 then r.utime else v.Utime }

/-- The first column, in the order of the table, whose value assigned from `v` does not
fit. -/
def assignedMisfit (sc : Schema) (v : User) : Option String :=
  if !v.Email.isZero && !fitsColumn sc Column.email (sqlValue v.Email) then some "email"
  else if !v.Phone.isZero && !fitsColumn sc Column.phone (sqlValue v.Phone) then some "phone"
  else if !v.Name.isZero && !fitsColumn sc Column.name (sqlValue v.Name) then some "name"
  else if v.Birthday != "" && !sc.fits Column.birthday v.Birthday then some "birthday"
  else if v.Resume != "" && !sc.fits Column.resume v.Resume then some "resume"
  else if v.Password != "" && !sc.fits Column.password v.Password then some "password"
  else if !v.WechatUnionID.isZero
      && !fitsColumn sc Column.wechat_union_id (sqlValue v.WechatUnionID) then
    some "wechat_union_id"
  else if !v.WechatOpenID.isZero
      && !fitsColumn sc Column.wechat_open_id (sqlValue v.WechatOpenID) then
    some "wechat_open_id"
  else none

/-- The unique index on which the values assigned from `v` collide with another stored
row `r`, if any. -/
def assignedKey (sc : Schema) (v : User) (r : Row) : Option String :=
  if v.Id != 0 && v.Id == r.id then some "PRIMARY"
  else if !v.Email.isZero && collides sc (sqlValue v.Email) r.email then some "email"
  else if !v.Phone.isZero && collides sc (sqlValue v.Phone) r.phone then some "phone"
  else if !v.Name.isZero && collides sc (sqlValue v.Name) r.name then some "name"
  else if !v.WechatOpenID.isZero && collides sc (sqlValue v.WechatOpenID) r.wechat_open_id then
    some "wechat_open_id"
  else none

/-- The statement `Model(&User{}).Where("id = ?", id).Updates(v)`: when no row has the key
`id` nothing happens and there is no error; when one has, the assignment is rejected with
error 1406 if an assigned value does not fit its column, with error 1062 if an assigned
value collides with another row, and made otherwise. The counter is not touched. -/
def gormUpdates (sc : Schema) (id : Int) (v : User) (t : Table) : Option StmtError × Table :=
  if t.rows.any (fun r => r.id == id) then
    match assignedMisfit sc v with
    | some column => (some (dataTooLong column), t)
    | none =>
      match (t.rows.filter (fun r => r.id != id)).findSome? (assignedKey sc v) with
      | some index => (some (duplicateEntry index), t)
      | none =>
        (none, { t with rows := t.rows.map (fun r => if r.id == id then assignNonZero v r else r) })
  else (none, t)

/-- Whether a row satisfies a `Where` condition. The key is compared as an integer; a
string column is compared with the argument by the server, under the collation of the
column; a NULL column satisfies no condition. -/
def Cond.holds (sc : Schema) (c : Cond) (r : Row) : Bool :=
  match c with
  | Cond.id v => r.id == v
  | Cond.phone v => collides sc r.phone (some v)
  | Cond.email v => collides sc r.email (some v)
  | Cond.wechat_open_id v => collides sc r.wechat_open_id (some v)

/-- The row `ORDER BY id LIMIT 1` keeps: one with the least key. -/
def leastId : List Row → Option Row
  | [] => none
  | r :: rs =>
    match leastId rs with
    | none => some r
    | some m => if r.id ≤ m.id then some r else some m

/-- The statement `Where(c).First(&u)`: the matching row with the least key is read into
`u`; with no matching row `u` stays as declared and the error is `ErrRecordNotFound`. -/
def gormFirst (sc : Schema) (c : Cond) (t : Table) : User × Option StmtError × Table :=
  match leastId (t.rows.filter (c.holds sc)) with
  | some r => (r.toUser, none, t)
  | none => (User.zero, some StmtError.ErrRecordNotFound, t)

/-- The handle on a table created with the schema `sc`. -/
def gormDB (sc : Schema) : DB Table :=
  { Create := fun _ u t => gormCreate sc u t
    Updates := fun _ id v t => gormUpdates sc id v t
    First := fun _ c t => gormFirst sc c t }

/-- The store `NewUserDAO` builds on the table handle. -/
def userDAO (sc : Schema) : GormUserDAO Table := NewUserDAO (some (gormDB sc))

/-! ## Two schemas -/

/-- The sizes gorm's MySQL driver declares for the struct `User` when no default string
size is configured: a string column with a unique index and no size is `varchar(191)`
(191 characters), `resume` is `text` (65535 bytes), the other string columns are
`longtext`, whose limit plays no part here. The tags `type=varchar(1024)` of the source
use `=` where gorm expects `:` and declare nothing. -/
def gormSizes (c : Column) (v : String) : Bool :=
  match c with
  | Column.email => decide (v.length ≤ 191)
  | Column.phone => decide (v.length ≤ 191)
  | Column.name => decide (v.length ≤ 191)
  | Column.wechat_open_id => decide (v.length ≤ 191)
  | Column.resume => decide (v.utf8ByteSize ≤ 65535)
  | _ => true

/-- The table created with gorm's sizes and the collation `same`. -/
def schemaWith (same : String → String → Bool) : Schema :=
  { same := same, fits := gormSizes }

/-- A letter without its case: the code of the lower-case letter for `A` to `Z`, the code
of the character otherwise. -/
def foldCase (c : Char) : Nat :=
  if 65 ≤ c.toNat ∧ c.toNat ≤ 90 then c.toNat + 32 else c.toNat

/-- Equality of two strings up to the case of the letters `A` to `Z`: how the default
collations of MySQL (they are case-insensitive) compare strings of plain letters, digits
and punctuation. -/
def sameIgnoringCase (a b : String) : Bool :=
  a.data.map foldCase == b.data.map foldCase

/-- The table as the server creates it by default: a case-insensitive collation. -/
def defaultSchema : Schema := schemaWith sameIgnoringCase

/-- The table created with a binary collation: strings are equal when they are the same
string. -/
def binarySchema : Schema := schemaWith (fun a b => a == b)

/-! ## Sample data -/

/-- A context for the examples. -/
def ctx0 : Context := { id := 0 }

/-- A handle whose every statement ends with the error `err` and changes nothing: a
server that cannot be reached, a context that is already cancelled, and the like. -/
def failingDB (err : StmtError) : DB Unit :=
  { Create := fun _ u s => (u, some err, s)
    Updates := fun _ _ _ s => (some err, s)
    First := fun _ _ s => (User.zero, some err, s) }

/-- A user record as a caller fills it in. -/
def alice : User :=
  { User.zero with Email := { String := "a@x.com", Valid := true },
                   Phone := { String := "111", Valid := true },
                   Name := { String := "alice", Valid := true },
                   Birthday := "1990-01-01", Resume := "old", Password := "pw" }

/-- A second record: its phone is the one of `alice`, everything else differs. -/
def bob : User :=
  { User.zero with Email := { String := "b@x.com", Valid := true },
                   Phone := { String := "111", Valid := true },
                   Name := { String := "bob", Valid := true } }

/-- A third record, sharing nothing with `alice`. -/
def carol : User :=
  { User.zero with Email := { String := "c@x.com", Valid := true },
                   Name := { String := "carol", Valid := true } }

/-- The row `alice` is stored as when inserted at time 1000 into the empty table. -/
def aliceRow : Row :=
  { id := 1, email := some "a@x.com", phone := some "111", name := some "alice",
    birthday := "1990-01-01", resume := "old", password := "pw",
    wechat_union_id := none, wechat_open_id := none, ctime := 1000, utime := 1000 }

/-- The row `carol` is stored as when inserted at time 1500 after `alice`. -/
def carolRow : Row :=
  { id := 2, email := some "c@x.com", phone := none, name := some "carol",
    birthday := "", resume := "", password := "",
    wechat_union_id := none, wechat_open_id := none, ctime := 1500, utime := 1500 }

/-- The table before any insert. -/
def noRows : Table := { rows := [], autoInc := 1 }

/-- The table after the insert of `alice`. -/
def tableAlice : Table := { rows := [aliceRow], autoInc := 2 }

/-- The table after the inserts of `alice` and `carol`. -/
def tableAliceCarol : Table := { rows := [aliceRow, carolRow], autoInc := 3 }

/-- The table holding `carol` alone under the key 2. -/
def tableCarol : Table := { rows := [carolRow], autoInc := 3 }

/-! ## Error mapping of `Insert` and `EditByID`, for every handle -/

/-- C1. When the create statement is rejected with MySQL error 1062, whatever its message
(that is, whichever unique index collided), `Insert` fails with `ErrUserDuplicateEmail`;
the database state is the one the statement left. -/
theorem Insert_unique_violation {σ : Type} (db : DB σ) (ctx : Context) (now : Int) (u : User)
    (s : σ) (u' : User) (msg : String) (s' : σ)
    (h : db.Create ctx { u with Utime := now, Ctime := now } s
          = (u', some (StmtError.MySQLError 1062 msg), s')) :
    (NewUserDAO (some db)).Insert ctx now u s
      = (Except.ok (some Error.ErrUserDuplicateEmail), s') := by
  unfold GormUserDAO.Insert NewUserDAO
  simp only [h]
  rfl

/-- C1, at an input: a record whose phone alone is already used is rejected on the phone
index, and `Insert` reports `ErrUserDuplicateEmail`. -/
theorem Insert_unique_violation_witness :
    (gormDB defaultSchema).Create ctx0 { bob with Utime := 2000, Ctime := 2000 } tableAlice
        = ({ bob with Utime := 2000, Ctime := 2000 },
            some (StmtError.MySQLError 1062 "Duplicate entry for key phone"),
            { rows := [aliceRow], autoInc := 3 })
      ∧ (NewUserDAO (some (gormDB defaultSchema))).Insert ctx0 2000 bob tableAlice
        = (Except.ok (some Error.ErrUserDuplicateEmail), { rows := [aliceRow], autoInc := 3 }) :=
  ⟨by decide, Insert_unique_violation (gormDB defaultSchema) ctx0 2000 bob tableAlice
    { bob with Utime := 2000, Ctime := 2000 } "Duplicate entry for key phone"
    { rows := [aliceRow], autoInc := 3 } (by decide)⟩

/-- C3. Every result of the create statement that is not MySQL error 1062 is returned as it
is, together with the state the statement left; in particular `Insert` returns nil when
the statement does. -/
theorem Insert_passes_through {σ : Type} (db : DB σ) (ctx : Context) (now : Int) (u : User)
    (s : σ) (u' : User) (err : Option StmtError) (s' : σ)
    (h : db.Create ctx { u with Utime := now, Ctime := now } s = (u', err, s'))
    (hne : ∀ msg, err ≠ some (StmtError.MySQLError 1062 msg)) :
    (NewUserDAO (some db)).Insert ctx now u s = (Except.ok (ofStmt err), s')
      ∧ (err = none → (NewUserDAO (some db)).Insert ctx now u s = (Except.ok none, s')) := by
  have key : (NewUserDAO (some db)).Insert ctx now u s = (Except.ok (ofStmt err), s') := by
    unfold GormUserDAO.Insert NewUserDAO
    simp only [h]
    split
    · rename_i number msg
      by_cases hn : number = 1062
      · exact absurd (by rw [hn]) (hne msg)
      · simp [uniqueConflictsErrNo, hn]
    · rfl
  refine ⟨key, fun h0 => ?_⟩
  rw [key, h0]
  rfl

/-- C3, at inputs: a cancelled context, an expired one, a MySQL error with another number,
a wrapped error 1062 and a successful statement all come back unchanged. -/
theorem Insert_passes_through_witness :
    (NewUserDAO (some (failingDB StmtError.Canceled))).Insert ctx0 7 alice ()
        = (Except.ok (some (Error.stmt StmtError.Canceled)), ())
      ∧ (NewUserDAO (some (failingDB StmtError.DeadlineExceeded))).Insert ctx0 7 alice ()
        = (Except.ok (some (Error.stmt StmtError.DeadlineExceeded)), ())
      ∧ (NewUserDAO (some (failingDB (StmtError.MySQLError 1406 "Data too long")))).Insert
          ctx0 7 alice ()
        = (Except.ok (some (Error.stmt (StmtError.MySQLError 1406 "Data too long"))), ())
      ∧ (NewUserDAO (some (failingDB
            (StmtError.wrapped "insert" (StmtError.MySQLError 1062 "Duplicate entry"))))).Insert
          ctx0 7 alice ()
        = (Except.ok (some (Error.stmt
            (StmtError.wrapped "insert" (StmtError.MySQLError 1062 "Duplicate entry")))), ())
      ∧ (NewUserDAO (some (gormDB defaultSchema))).Insert ctx0 1000 alice noRows
        = (Except.ok none, tableAlice) :=
  ⟨(Insert_passes_through (failingDB StmtError.Canceled) ctx0 7 alice () _ _ () rfl
      (by intro msg; simp)).1,
   (Insert_passes_through (failingDB StmtError.DeadlineExceeded) ctx0 7 alice () _ _ () rfl
      (by intro msg; simp)).1,
   (Insert_passes_through (failingDB (StmtError.MySQLError 1406 "Data too long")) ctx0 7 alice
      () _ _ () rfl (by intro msg; simp)).1,
   (Insert_passes_through (failingDB
      (StmtError.wrapped "insert" (StmtError.MySQLError 1062 "Duplicate entry"))) ctx0 7 alice
      () _ _ () rfl (by intro msg; simp)).1,
   (Insert_passes_through (gormDB defaultSchema) ctx0 1000 alice noRows
      { alice with Id := 1, Utime := 1000, Ctime := 1000 } none tableAlice
      (by decide) (by intro msg; simp)).2 rfl⟩

/-- C4. `EditByID` fails with `ErrUserDuplicateName` exactly when the update statement
fails with MySQL error 1062, and returns every other result of the statement, nil
included, as it is; the database state is always the one the statement left. -/
theorem EditByID_error_mapping {σ : Type} (db : DB σ) (ctx : Context) (id : Int)
    (name birthday resume : String) (s : σ) (err : Option StmtError) (s' : σ)
    (h : db.Updates ctx id
          { User.zero with Name := { String := name, Valid := true }, Birthday := birthday,
                           Resume := resume } s = (err, s')) :
    (((NewUserDAO (some db)).EditByID ctx id name birthday resume s).1
          = Except.ok (some Error.ErrUserDuplicateName)
        ↔ ∃ msg, err = some (StmtError.MySQLError 1062 msg))
      ∧ ((∀ msg, err ≠ some (StmtError.MySQLError 1062 msg)) →
          (NewUserDAO (some db)).EditByID ctx id name birthday resume s
            = (Except.ok (ofStmt err), s'))
      ∧ ((NewUserDAO (some db)).EditByID ctx id name birthday resume s).2 = s' := by
  unfold GormUserDAO.EditByID NewUserDAO
  simp only [h]
  rcases err with _ | e
  · simp [ofStmt]
  · cases e with
    | MySQLError number msg =>
      by_cases hn : number = 1062
      · subst hn
        simp [uniqueConflictsErrNo]
      · simp [uniqueConflictsErrNo, hn, ofStmt]
    | _ => simp [ofStmt]

/-- C4, at inputs: renaming to a name another row holds is rejected by the name index and
reported as `ErrUserDuplicateName`; an expired context and a successful update come back
unchanged. -/
theorem EditByID_error_mapping_witness :
    (NewUserDAO (some (gormDB defaultSchema))).EditByID ctx0 2 "alice" "" "" tableAliceCarol
        = (Except.ok (some Error.ErrUserDuplicateName), tableAliceCarol)
      ∧ (NewUserDAO (some (failingDB StmtError.DeadlineExceeded))).EditByID ctx0 2 "x" "y" "z" ()
        = (Except.ok (some (Error.stmt StmtError.DeadlineExceeded)), ())
      ∧ ((NewUserDAO (some (gormDB defaultSchema))).EditByID ctx0 2 "dave" "" ""
          tableAliceCarol).1
        = Except.ok none :=
  ⟨Prod.ext
    ((EditByID_error_mapping (gormDB defaultSchema) ctx0 2 "alice" "" "" tableAliceCarol
      (some (StmtError.MySQLError 1062 "Duplicate entry for key name")) tableAliceCarol
      (by decide)).1.2 ⟨_, rfl⟩)
    (EditByID_error_mapping (gormDB defaultSchema) ctx0 2 "alice" "" "" tableAliceCarol
      (some (StmtError.MySQLError 1062 "Duplicate entry for key name")) tableAliceCarol
      (by decide)).2.2,
   (EditByID_error_mapping (failingDB StmtError.DeadlineExceeded) ctx0 2 "x" "y" "z" ()
      (some StmtError.DeadlineExceeded) () rfl).2.1 (by intro msg; simp),
   congrArg Prod.fst
    ((EditByID_error_mapping (gormDB defaultSchema) ctx0 2 "dave" "" "" tableAliceCarol none
      { rows := [aliceRow, { carolRow with name := some "dave" }], autoInc := 3 }
      (by decide)).2.1
      (by intro msg; simp))⟩

/-! ## What `Insert` hands to the database -/

/-- C2. On every handle, `Insert` hands the database exactly one statement: the creation of
the caller's record with `Ctime` and `Utime` both replaced by the clock reading `now` and
every other field as supplied. -/
theorem Insert_stamps_row {σ : Type} (db : DB σ) (ctx : Context) (now : Int) (u : User)
    (s : σ) (journal : List Stmt) :
    ((NewUserDAO (some db.traced)).Insert ctx now u (s, journal)).2.2
      = journal ++ [Stmt.Create ctx
          { Id := u.Id, Email := u.Email, Phone := u.Phone, Name := u.Name,
            Birthday := u.Birthday, Resume := u.Resume, Password := u.Password,
            WechatUnionID := u.WechatUnionID, WechatOpenID := u.WechatOpenID,
            Ctime := now, Utime := now }] := by
  rcases hr : db.Create ctx { u with Utime := now, Ctime := now } s with ⟨u', err, s'⟩
  have ht : db.traced.Create ctx { u with Utime := now, Ctime := now } (s, journal)
      = (u', err, (s', journal ++ [Stmt.Create ctx { u with Utime := now, Ctime := now }])) := by
    simp only [DB.traced, hr]
  unfold GormUserDAO.Insert NewUserDAO
  simp only [ht]
  split
  · split <;> rfl
  · rfl

/-! ## The two constructors -/

/-- C10. A store built by `NewUserDAO` on a handle holds that handle and each of its six
methods is the corresponding statement on it: the next database state, and for a lookup
the record and the error too, are those of the statement. A store built by `NewUserDAOV1`
holds no handle, and whatever the provider is (it is never applied), each of its six
methods ends in the nil-pointer panic and leaves the database state as it was. -/
theorem constructors_and_handle {σ : Type} (db : DB σ) (p : DBProvider σ) (ctx : Context)
    (now id : Int) (u : User) (name birthday resume key : String) (s : σ) :
    ((NewUserDAO (some db)).db = some db
      ∧ ((NewUserDAO (some db)).Insert ctx now u s).2
          = (db.Create ctx { u with Utime := now, Ctime := now } s).2.2
      ∧ ((NewUserDAO (some db)).EditByID ctx id name birthday resume s).2
          = (db.Updates ctx id
              { User.zero with Name := { String := name, Valid := true }, Birthday := birthday,
                               Resume := resume } s).2
      ∧ (NewUserDAO (some db)).FindByID ctx id s
          = (Except.ok ((db.First ctx (Cond.id id) s).1, ofStmt (db.First ctx (Cond.id id) s).2.1),
              (db.First ctx (Cond.id id) s).2.2)
      ∧ (NewUserDAO (some db)).FindByPhone ctx key s
          = (Except.ok ((db.First ctx (Cond.phone key) s).1,
                ofStmt (db.First ctx (Cond.phone key) s).2.1),
              (db.First ctx (Cond.phone key) s).2.2)
      ∧ (NewUserDAO (some db)).FindByEmail ctx key s
          = (Except.ok ((db.First ctx (Cond.email key) s).1,
                ofStmt (db.First ctx (Cond.email key) s).2.1),
              (db.First ctx (Cond.email key) s).2.2)
      ∧ (NewUserDAO (some db)).FindByWechat ctx key s
          = (Except.ok ((db.First ctx (Cond.wechat_open_id key) s).1,
                ofStmt (db.First ctx (Cond.wechat_open_id key) s).2.1),
              (db.First ctx (Cond.wechat_open_id key) s).2.2))
    ∧ ((NewUserDAOV1 p).db = none
      ∧ (NewUserDAOV1 p).Insert ctx now u s = (Except.error Panic.nilPointerDereference, s)
      ∧ (NewUserDAOV1 p).EditByID ctx id name birthday resume s
          = (Except.error Panic.nilPointerDereference, s)
      ∧ (NewUserDAOV1 p).FindByID ctx id s = (Except.error Panic.nilPointerDereference, s)
      ∧ (NewUserDAOV1 p).FindByPhone ctx key s = (Except.error Panic.nilPointerDereference, s)
      ∧ (NewUserDAOV1 p).FindByEmail ctx key s = (Except.error Panic.nilPointerDereference, s)
      ∧ (NewUserDAOV1 p).FindByWechat ctx key s
          = (Except.error Panic.nilPointerDereference, s)) := by
  refine ⟨⟨rfl, ?_, ?_, rfl, rfl, rfl, rfl⟩, rfl, rfl, rfl, rfl, rfl, rfl, rfl⟩
  · rcases hr : db.Create ctx { u with Utime := now, Ctime := now } s with ⟨u', err, s'⟩
    unfold GormUserDAO.Insert NewUserDAO
    simp only [hr]
    split
    · split <;> rfl
    · rfl
  · rcases hr : db.Updates ctx id
        { User.zero with Name := { String := name, Valid := true }, Birthday := birthday,
                         Resume := resume } s with ⟨err, s'⟩
    unfold GormUserDAO.EditByID NewUserDAO
    simp only [hr]
    split
    · split <;> rfl
    · rfl

/-! ## Outcomes of the two writing methods, from the outcome of their statement -/

/-- The method `Insert` returns nil when the create statement does. -/
theorem Insert_of_nil {σ : Type} (db : DB σ) (ctx : Context) (now : Int) (u : User) (s : σ)
    (u' : User) (s' : σ)
    (h : db.Create ctx { u with Utime := now, Ctime := now } s = (u', none, s')) :
    (NewUserDAO (some db)).Insert ctx now u s = (Except.ok none, s') := by
  unfold GormUserDAO.Insert NewUserDAO
  simp only [h]
  rfl

/-- The method `Insert` returns `ErrUserDuplicateEmail` on a duplicate entry, whatever the index. -/
theorem Insert_of_duplicate {σ : Type} (db : DB σ) (ctx : Context) (now : Int) (u : User)
    (s : σ) (u' : User) (key : String) (s' : σ)
    (h : db.Create ctx { u with Utime := now, Ctime := now } s
          = (u', some (duplicateEntry key), s')) :
    (NewUserDAO (some db)).Insert ctx now u s
      = (Except.ok (some Error.ErrUserDuplicateEmail), s') := by
  unfold GormUserDAO.Insert NewUserDAO
  simp only [h]
  rfl

/-- The method `EditByID` returns nil when the update statement does. -/
theorem EditByID_of_nil {σ : Type} (db : DB σ) (ctx : Context) (id : Int)
    (name birthday resume : String) (s s' : σ)
    (h : db.Updates ctx id
          { User.zero with Name := { String := name, Valid := true }, Birthday := birthday,
                           Resume := resume } s = (none, s')) :
    (NewUserDAO (some db)).EditByID ctx id name birthday resume s = (Except.ok none, s') := by
  unfold GormUserDAO.EditByID NewUserDAO
  simp only [h]
  rfl

/-- The method `EditByID` returns `ErrUserDuplicateName` on a duplicate entry, whatever the index. -/
theorem EditByID_of_duplicate {σ : Type} (db : DB σ) (ctx : Context) (id : Int)
    (name birthday resume : String) (s : σ) (key : String) (s' : σ)
    (h : db.Updates ctx id
          { User.zero with Name := { String := name, Valid := true }, Birthday := birthday,
                           Resume := resume } s = (some (duplicateEntry key), s')) :
    (NewUserDAO (some db)).EditByID ctx id name birthday resume s
      = (Except.ok (some Error.ErrUserDuplicateName), s') := by
  unfold GormUserDAO.EditByID NewUserDAO
  simp only [h]
  rfl

/-- The database state after `EditByID` is the one its update statement left. -/
theorem EditByID_state {σ : Type} (db : DB σ) (ctx : Context) (id : Int)
    (name birthday resume : String) (s : σ) :
    ((NewUserDAO (some db)).EditByID ctx id name birthday resume s).2
      = (db.Updates ctx id
          { User.zero with Name := { String := name, Valid := true }, Birthday := birthday,
                           Resume := resume } s).2 := by
  rcases hr : db.Updates ctx id
      { User.zero with Name := { String := name, Valid := true }, Birthday := birthday,
                       Resume := resume } s with ⟨err, s1⟩
  unfold GormUserDAO.EditByID NewUserDAO
  simp only [hr]
  split
  · split <;> rfl
  · rfl

/-- When `EditByID` returns nil, its update statement did. -/
theorem EditByID_nil_inv {σ : Type} (db : DB σ) (ctx : Context) (id : Int)
    (name birthday resume : String) (s s' : σ)
    (h : (NewUserDAO (some db)).EditByID ctx id name birthday resume s = (Except.ok none, s')) :
    db.Updates ctx id
        { User.zero with Name := { String := name, Valid := true }, Birthday := birthday,
                         Resume := resume } s = (none, s') := by
  rcases hr : db.Updates ctx id
      { User.zero with Name := { String := name, Valid := true }, Birthday := birthday,
                       Resume := resume } s with ⟨err, s1⟩
  unfold GormUserDAO.EditByID NewUserDAO at h
  simp only [hr] at h
  rcases err with _ | e
  · have h2 := (Prod.mk.inj h).2
    rw [h2]
  · exfalso
    cases e with
    | MySQLError number msg =>
      by_cases hn : number = 1062
      · simp [uniqueConflictsErrNo, hn] at h
      · simp [uniqueConflictsErrNo, hn, ofStmt] at h
    | _ => simp [ofStmt] at h

/-! ## `EditByID` on the table -/

/-- The assignments of the struct `EditByID` builds: the name always, birthday and resume
when they are not empty, nothing else. -/
theorem assignNonZero_edit (name birthday resume : String) (r : Row) :
    assignNonZero
        { User.zero with Name := { String := name, Valid := true }, Birthday := birthday,
                         Resume := resume } r
      = { r with name := some name,
                 birthday := if birthday = "" then r.birthday else birthday,
                 resume := if resume = "" then r.resume else resume } := by
  simp [assignNonZero, User.zero, NullString.zero, NullString.isZero, sqlValue]

/-- Mapping rows with a function that only touches rows of key `id` changes nothing when
no row has that key. -/
theorem map_if_id_absent (f : Row → Row) (id : Int) (l : List Row) (h : ∀ r ∈ l, r.id ≠ id) :
    l.map (fun r => if r.id = id then f r else r) = l := by
  induction l with
  | nil => rfl
  | cons r rs ih =>
    have h1 : r.id ≠ id := h r (List.mem_cons_self r rs)
    have h2 : ∀ x ∈ rs, x.id ≠ id := fun x hx => h x (List.mem_cons_of_mem r hx)
    simp [h1, ih h2]

/-- No row has the key exactly when the test of the update statement fails. -/
theorem any_id_eq_false (id : Int) (l : List Row) (h : ∀ r ∈ l, r.id ≠ id) :
    l.any (fun r => r.id == id) = false := by
  rw [Bool.eq_false_iff]
  intro hc
  obtain ⟨r, hr, hid⟩ := List.any_eq_true.mp hc
  exact h r hr (by simpa using hid)

/-- The update statement on a table with no row of key `id`: no error, nothing changed. -/
theorem gormUpdates_absent (sc : Schema) (id : Int) (v : User) (t : Table)
    (h : ∀ r ∈ t.rows, r.id ≠ id) : gormUpdates sc id v t = (none, t) := by
  simp [gormUpdates, any_id_eq_false id t.rows h]

/-- The table after an update statement that ended without error. -/
theorem gormUpdates_nil (sc : Schema) (id : Int) (v : User) (t t' : Table)
    (h : gormUpdates sc id v t = (none, t')) :
    t' = { rows := t.rows.map (fun r => if r.id = id then assignNonZero v r else r),
           autoInc := t.autoInc } := by
  unfold gormUpdates at h
  split at h
  · split at h
    · simp at h
    · split at h
      · simp at h
      · rw [← (Prod.mk.inj h).2]
        simp
  · rename_i hany
    have habs : ∀ r ∈ t.rows, r.id ≠ id := by
      intro r hr hid
      exact hany (List.any_eq_true.mpr ⟨r, hr, by simp [hid]⟩)
    rw [map_if_id_absent _ id t.rows habs, ← (Prod.mk.inj h).2]

/-- C5, at the failing input, whatever the collation of the table: editing the stored row
of `alice` with the name "Bob", an empty birthday and an empty resume succeeds, the name is
overwritten, and the row keeps the birthday and the resume it had instead of the empty
ones it was given. -/
theorem EditByID_empty_strings_keep_columns (same : String → String → Bool) :
    (userDAO (schemaWith same)).EditByID ctx0 1 "Bob" "" "" tableAlice
        = (Except.ok none, { rows := [{ aliceRow with name := some "Bob" }], autoInc := 2 })
      ∧ aliceRow.birthday = "1990-01-01" ∧ aliceRow.resume = "old"
      ∧ (userDAO (schemaWith same)).EditByID ctx0 1 "Bob" "" "" tableAlice
        ≠ (Except.ok none,
            { rows := [{ aliceRow with name := some "Bob", birthday := "", resume := "" }],
              autoInc := 2 }) := by
  have h : (userDAO (schemaWith same)).EditByID ctx0 1 "Bob" "" "" tableAlice
      = (Except.ok none, { rows := [{ aliceRow with name := some "Bob" }], autoInc := 2 }) := rfl
  refine ⟨h, by decide, by decide, ?_⟩
  rw [h]
  decide

/-- The table after a successful `EditByID`, in full. -/
theorem EditByID_success_table (sc : Schema) (ctx : Context) (id : Int)
    (name birthday resume : String) (t t' : Table)
    (h : (userDAO sc).EditByID ctx id name birthday resume t = (Except.ok none, t')) :
    t' = { rows := t.rows.map (fun r => if r.id = id then
              { r with name := some name,
                       birthday := if birthday = "" then r.birthday else birthday,
                       resume := if resume = "" then r.resume else resume }
            else r),
           autoInc := t.autoInc } := by
  have hu := EditByID_nil_inv (gormDB sc) ctx id name birthday resume t t' h
  have hn := gormUpdates_nil sc id _ t t' hu
  rw [hn]
  simp only [assignNonZero_edit]

/-- What a successful `EditByID` does: afterwards the table has the same rows in the same
order, where every row of key `id` has the given name (an empty one included), the given
birthday when it is not empty and its old birthday otherwise, the given resume when it is
not empty and its old resume otherwise, and its old key, email, phone, open id, union id,
password and creation time; every row of another key is as before. -/
theorem EditByID_effect_and_frame (sc : Schema) (ctx : Context) (id : Int)
    (name birthday resume : String) (t t' : Table)
    (h : (userDAO sc).EditByID ctx id name birthday resume t = (Except.ok none, t')) :
    List.Forall₂
      (fun r r' =>
        (r.id = id →
          r'.name = some name
            ∧ r'.birthday = (if birthday = "" then r.birthday else birthday)
            ∧ r'.resume = (if resume = "" then r.resume else resume)
            ∧ r'.id = r.id ∧ r'.email = r.email ∧ r'.phone = r.phone
            ∧ r'.wechat_open_id = r.wechat_open_id ∧ r'.wechat_union_id = r.wechat_union_id
            ∧ r'.password = r.password ∧ r'.ctime = r.ctime)
          ∧ (r.id ≠ id → r' = r))
      t.rows t'.rows := by
  rw [EditByID_success_table sc ctx id name birthday resume t t' h]
  clear h
  show List.Forall₂ _ t.rows (t.rows.map _)
  induction t.rows with
  | nil => exact List.Forall₂.nil
  | cons r rs ih =>
    rw [List.map_cons]
    refine List.Forall₂.cons ⟨fun hid => ?_, fun hid => ?_⟩ ih
    · simp [hid]
    · simp [hid]

/-- The same at an input: the edit of the specification's example on a table of two
rows succeeds, changes the three columns of the row of key 1 and nothing else. -/
theorem EditByID_effect_and_frame_witness :
    (userDAO defaultSchema).EditByID ctx0 1 "Bob" "2000-01-01" "resume text" tableAliceCarol
        = (Except.ok none,
            { rows := [{ aliceRow with name := some "Bob", birthday := "2000-01-01",
                                       resume := "resume text" }, carolRow],
              autoInc := 3 })
      ∧ List.Forall₂
          (fun r r' =>
            (r.id = 1 →
              r'.name = some "Bob"
                ∧ r'.birthday = (if "2000-01-01" = "" then r.birthday else "2000-01-01")
                ∧ r'.resume = (if "resume text" = "" then r.resume else "resume text")
                ∧ r'.id = r.id ∧ r'.email = r.email ∧ r'.phone = r.phone
                ∧ r'.wechat_open_id = r.wechat_open_id
                ∧ r'.wechat_union_id = r.wechat_union_id
                ∧ r'.password = r.password ∧ r'.ctime = r.ctime)
              ∧ (r.id ≠ 1 → r' = r))
          [aliceRow, carolRow]
          [{ aliceRow with name := some "Bob", birthday := "2000-01-01",
                           resume := "resume text" }, carolRow] :=
  ⟨by decide,
   EditByID_effect_and_frame defaultSchema ctx0 1 "Bob" "2000-01-01" "resume text"
    tableAliceCarol
    { rows := [{ aliceRow with name := some "Bob", birthday := "2000-01-01",
                               resume := "resume text" }, carolRow],
      autoInc := 3 }
    (by decide)⟩

/-- C8. When no stored row has the key `id`, `EditByID` returns nil, not
`ErrUserNotFound`, and the table is unchanged, whatever the collation and the column sizes
of the table. -/
theorem EditByID_missing_row (sc : Schema) (ctx : Context) (id : Int)
    (name birthday resume : String) (t : Table) (h : ∀ r ∈ t.rows, r.id ≠ id) :
    (userDAO sc).EditByID ctx id name birthday resume t = (Except.ok none, t) :=
  EditByID_of_nil (gormDB sc) ctx id name birthday resume t t (gormUpdates_absent sc id _ t h)

/-- C8, at an input: editing key 7 on a table holding keys 1 and 2, even with a name that
is already used. -/
theorem EditByID_missing_row_witness :
    (userDAO defaultSchema).EditByID ctx0 7 "alice" "2000-01-01" "resume text" tableAliceCarol
        = (Except.ok none, tableAliceCarol) :=
  EditByID_missing_row defaultSchema ctx0 7 "alice" "2000-01-01" "resume text" tableAliceCarol
    (by decide)

/-- No edit changes a modification time: the column `utime` of the table, row by row, is
after `EditByID` what it was before, whatever the outcome. -/
theorem EditByID_utime_untouched (sc : Schema) (ctx : Context) (id : Int)
    (name birthday resume : String) (t : Table) :
    ((userDAO sc).EditByID ctx id name birthday resume t).2.rows.map (fun r => r.utime)
      = t.rows.map (fun r => r.utime) := by
  have hs := EditByID_state (gormDB sc) ctx id name birthday resume t
  have hs2 : ((userDAO sc).EditByID ctx id name birthday resume t).2
      = (gormUpdates sc id
          { User.zero with Name := { String := name, Valid := true }, Birthday := birthday,
                           Resume := resume } t).2 := hs
  rw [hs2]
  unfold gormUpdates
  split
  · split
    · rfl
    · split
      · rfl
      · simp only [List.map_map]
        apply List.map_congr_left
        intro r _
        by_cases hid : r.id = id <;> simp [hid, assignNonZero, User.zero]
  · rfl

/-- C7, at the failing input, whatever the collation of the table: a row inserted when the
clock reads 1000 and edited successfully afterwards still has the modification time 1000;
`EditByID` takes no clock reading and its statement assigns no time. -/
theorem EditByID_leaves_Utime (same : String → String → Bool) :
    (userDAO (schemaWith same)).Insert ctx0 1000 alice noRows = (Except.ok none, tableAlice)
      ∧ aliceRow.utime = 1000
      ∧ (userDAO (schemaWith same)).EditByID ctx0 1 "Bob" "2000-01-01" "resume text" tableAlice
        = (Except.ok none,
            { rows := [{ aliceRow with name := some "Bob", birthday := "2000-01-01",
                                       resume := "resume text", utime := 1000 }],
              autoInc := 2 }) :=
  ⟨rfl, rfl, rfl⟩

/-! ## The four lookups on the table -/

/-- The function `leastId` finds nothing only in the empty list. -/
theorem leastId_eq_none (l : List Row) (h : leastId l = none) : l = [] := by
  cases l with
  | nil => rfl
  | cons r rs =>
    unfold leastId at h
    split at h
    · simp at h
    · split at h <;> simp at h

/-- The function `leastId` gives a row of the list. -/
theorem leastId_mem (l : List Row) (m : Row) (h : leastId l = some m) : m ∈ l := by
  induction l generalizing m with
  | nil => simp [leastId] at h
  | cons r rs ih =>
    unfold leastId at h
    split at h
    · simp only [Option.some.injEq] at h
      simp [h]
    · rename_i m' hm'
      split at h
      · simp only [Option.some.injEq] at h
        simp [h]
      · simp only [Option.some.injEq] at h
        rw [← h]
        exact List.mem_cons_of_mem r (ih m' hm')

/-- The record a row is read into, column by column: a NULL column becomes the zero
`sql.NullString`, any other a valid one holding the stored string. -/
theorem toUser_columns (r : Row) :
    r.toUser = { Id := r.id,
                 Email := r.email.elim { String := "", Valid := false }
                   (fun v => { String := v, Valid := true }),
                 Phone := r.phone.elim { String := "", Valid := false }
                   (fun v => { String := v, Valid := true }),
                 Name := r.name.elim { String := "", Valid := false }
                   (fun v => { String := v, Valid := true }),
                 Birthday := r.birthday, Resume := r.resume, Password := r.password,
                 WechatUnionID := r.wechat_union_id.elim { String := "", Valid := false }
                   (fun v => { String := v, Valid := true }),
                 WechatOpenID := r.wechat_open_id.elim { String := "", Valid := false }
                   (fun v => { String := v, Valid := true }),
                 Ctime := r.ctime, Utime := r.utime } := by
  rcases r with ⟨id, e, p, n, b, rs, pw, wu, wo, c, u⟩
  cases e <;> cases p <;> cases n <;> cases wu <;> cases wo <;> rfl

/-- A stored column satisfies a string condition exactly when it is not NULL and the
server takes its string for equal to the key. -/
theorem collides_key (sc : Schema) (c : Option String) (key : String) :
    collides sc c (some key) = true ↔ ∃ e ∈ c, sc.same e key = true := by
  cases c with
  | none => simp [collides]
  | some x => simp [collides]

/-- A lookup on the table when no row satisfies the condition. -/
theorem findWhere_absent (sc : Schema) (ctx : Context) (c : Cond) (t : Table)
    (h : ∀ r ∈ t.rows, c.holds sc r = false) :
    (userDAO sc).findWhere ctx c t = (Except.ok (User.zero, some ErrUserNotFound), t) := by
  have hf : t.rows.filter (c.holds sc) = [] := by
    rw [List.filter_eq_nil_iff]
    intro r hr
    simp [h r hr]
  show (Except.ok ((gormFirst sc c t).1, ofStmt (gormFirst sc c t).2.1), (gormFirst sc c t).2.2)
    = _
  simp only [gormFirst, hf, leastId]
  rfl

/-- A lookup on the table when some row satisfies the condition. -/
theorem findWhere_present (sc : Schema) (ctx : Context) (c : Cond) (t : Table)
    (h : ∃ r ∈ t.rows, c.holds sc r = true) :
    ∃ r ∈ t.rows, c.holds sc r = true
      ∧ (userDAO sc).findWhere ctx c t = (Except.ok (r.toUser, none), t) := by
  obtain ⟨r0, hr0, hc0⟩ := h
  have hne : t.rows.filter (c.holds sc) ≠ [] := by
    intro hnil
    have hmem : r0 ∈ t.rows.filter (c.holds sc) := List.mem_filter.mpr ⟨hr0, hc0⟩
    rw [hnil] at hmem
    exact absurd hmem (List.not_mem_nil r0)
  rcases hl : leastId (t.rows.filter (c.holds sc)) with _ | m
  · exact absurd (leastId_eq_none _ hl) hne
  · have hm := List.mem_filter.mp (leastId_mem _ m hl)
    refine ⟨m, hm.1, hm.2, ?_⟩
    show (Except.ok ((gormFirst sc c t).1, ofStmt (gormFirst sc c t).2.1),
      (gormFirst sc c t).2.2) = _
    simp only [gormFirst, hl]
    rfl

/-- C6, as stated, fails on a table created with the default, case-insensitive collation:
no stored row has the email "A@x.com", yet `FindByEmail` with that key does not fail with
`ErrUserNotFound`; it returns, with a nil error, the record of `alice`, whose email is
"a@x.com". -/
theorem FindByEmail_matches_other_case :
    (∀ r ∈ tableAliceCarol.rows, r.email ≠ some "A@x.com")
      ∧ (userDAO defaultSchema).FindByEmail ctx0 "A@x.com" tableAliceCarol
        = (Except.ok
            ({ Id := 1, Email := { String := "a@x.com", Valid := true },
               Phone := { String := "111", Valid := true },
               Name := { String := "alice", Valid := true },
               Birthday := "1990-01-01", Resume := "old", Password := "pw",
               WechatUnionID := { String := "", Valid := false },
               WechatOpenID := { String := "", Valid := false },
               Ctime := 1000, Utime := 1000 }, none), tableAliceCarol)
      ∧ ((userDAO defaultSchema).FindByEmail ctx0 "A@x.com" tableAliceCarol).1
        ≠ Except.ok (User.zero, some ErrUserNotFound) := by
  decide

/-- C6, amended. Whatever the collation of the table, each of the four lookups fails with
`ErrUserNotFound` when no stored row has its column equal to the key as the server compares
them (the key `id` as an integer, a string column under the collation, NULL equal to
nothing), and otherwise returns, with a nil error, the record read column by column from
one stored row whose column equals the key in that sense. The key reaches the server as the
caller gave it, and the table is unchanged either way. -/
theorem lookup_contract (sc : Schema) (ctx : Context) (t : Table) (id : Int)
    (email phone openID : String) :
    (((∀ r ∈ t.rows, r.id ≠ id) →
        (userDAO sc).FindByID ctx id t = (Except.ok (User.zero, some ErrUserNotFound), t))
      ∧ ((∃ r ∈ t.rows, r.id = id) →
        ∃ r ∈ t.rows, r.id = id
          ∧ (userDAO sc).FindByID ctx id t
            = (Except.ok
                ({ Id := r.id,
                   Email := r.email.elim { String := "", Valid := false }
                     (fun v => { String := v, Valid := true }),
                   Phone := r.phone.elim { String := "", Valid := false }
                     (fun v => { String := v, Valid := true }),
                   Name := r.name.elim { String := "", Valid := false }
                     (fun v => { String := v, Valid := true }),
                   Birthday := r.birthday, Resume := r.resume, Password := r.password,
                   WechatUnionID := r.wechat_union_id.elim { String := "", Valid := false }
                     (fun v => { String := v, Valid := true }),
                   WechatOpenID := r.wechat_open_id.elim { String := "", Valid := false }
                     (fun v => { String := v, Valid := true }),
                   Ctime := r.ctime, Utime := r.utime }, none), t)))
    ∧ (((∀ r ∈ t.rows, ∀ e ∈ r.email, sc.same e email = false) →
        (userDAO sc).FindByEmail ctx email t = (Except.ok (User.zero, some ErrUserNotFound), t))
      ∧ ((∃ r ∈ t.rows, ∃ e ∈ r.email, sc.same e email = true) →
        ∃ r ∈ t.rows, ∃ e ∈ r.email, sc.same e email = true
          ∧ (userDAO sc).FindByEmail ctx email t
            = (Except.ok
                ({ Id := r.id,
                   Email := r.email.elim { String := "", Valid := false }
                     (fun v => { String := v, Valid := true }),
                   Phone := r.phone.elim { String := "", Valid := false }
                     (fun v => { String := v, Valid := true }),
                   Name := r.name.elim { String := "", Valid := false }
                     (fun v => { String := v, Valid := true }),
                   Birthday := r.birthday, Resume := r.resume, Password := r.password,
                   WechatUnionID := r.wechat_union_id.elim { String := "", Valid := false }
                     (fun v => { String := v, Valid := true }),
                   WechatOpenID := r.wechat_open_id.elim { String := "", Valid := false }
                     (fun v => { String := v, Valid := true }),
                   Ctime := r.ctime, Utime := r.utime }, none), t)))
    ∧ (((∀ r ∈ t.rows, ∀ e ∈ r.phone, sc.same e phone = false) →
        (userDAO sc).FindByPhone ctx phone t = (Except.ok (User.zero, some ErrUserNotFound), t))
      ∧ ((∃ r ∈ t.rows, ∃ e ∈ r.phone, sc.same e phone = true) →
        ∃ r ∈ t.rows, ∃ e ∈ r.phone, sc.same e phone = true
          ∧ (userDAO sc).FindByPhone ctx phone t
            = (Except.ok
                ({ Id := r.id,
                   Email := r.email.elim { String := "", Valid := false }
                     (fun v => { String := v, Valid := true }),
                   Phone := r.phone.elim { String := "", Valid := false }
                     (fun v => { String := v, Valid := true }),
                   Name := r.name.elim { String := "", Valid := false }
                     (fun v => { String := v, Valid := true }),
                   Birthday := r.birthday, Resume := r.resume, Password := r.password,
                   WechatUnionID := r.wechat_union_id.elim { String := "", Valid := false }
                     (fun v => { String := v, Valid := true }),
                   WechatOpenID := r.wechat_open_id.elim { String := "", Valid := false }
                     (fun v => { String := v, Valid := true }),
                   Ctime := r.ctime, Utime := r.utime }, none), t)))
    ∧ (((∀ r ∈ t.rows, ∀ e ∈ r.wechat_open_id, sc.same e openID = false) →
        (userDAO sc).FindByWechat ctx openID t = (Except.ok (User.zero, some ErrUserNotFound), t))
      ∧ ((∃ r ∈ t.rows, ∃ e ∈ r.wechat_open_id, sc.same e openID = true) →
        ∃ r ∈ t.rows, ∃ e ∈ r.wechat_open_id, sc.same e openID = true
          ∧ (userDAO sc).FindByWechat ctx openID t
            = (Except.ok
                ({ Id := r.id,
                   Email := r.email.elim { String := "", Valid := false }
                     (fun v => { String := v, Valid := true }),
                   Phone := r.phone.elim { String := "", Valid := false }
                     (fun v => { String := v, Valid := true }),
                   Name := r.name.elim { String := "", Valid := false }
                     (fun v => { String := v, Valid := true }),
                   Birthday := r.birthday, Resume := r.resume, Password := r.password,
                   WechatUnionID := r.wechat_union_id.elim { String := "", Valid := false }
                     (fun v => { String := v, Valid := true }),
                   WechatOpenID := r.wechat_open_id.elim { String := "", Valid := false }
                     (fun v => { String := v, Valid := true }),
                   Ctime := r.ctime, Utime := r.utime }, none), t))) := by
  refine ⟨⟨?_, ?_⟩, ⟨?_, ?_⟩, ⟨?_, ?_⟩, ⟨?_, ?_⟩⟩
  · intro h
    exact findWhere_absent sc ctx (Cond.id id) t (fun r hr => by simpa [Cond.holds] using h r hr)
  · rintro ⟨r, hr, hk⟩
    obtain ⟨m, hm, hc, he⟩ := findWhere_present sc ctx (Cond.id id) t
      ⟨r, hr, by simpa [Cond.holds] using hk⟩
    rw [toUser_columns] at he
    exact ⟨m, hm, by simpa [Cond.holds] using hc, he⟩
  · intro h
    refine findWhere_absent sc ctx (Cond.email email) t (fun r hr => ?_)
    rw [Bool.eq_false_iff]
    intro hc
    obtain ⟨e, he, hs⟩ := (collides_key sc r.email email).mp hc
    rw [h r hr e he] at hs
    exact Bool.noConfusion hs
  · rintro ⟨r, hr, e, he, hs⟩
    obtain ⟨m, hm, hc, hres⟩ := findWhere_present sc ctx (Cond.email email) t
      ⟨r, hr, (collides_key sc r.email email).mpr ⟨e, he, hs⟩⟩
    obtain ⟨e', he', hs'⟩ := (collides_key sc m.email email).mp hc
    rw [toUser_columns] at hres
    exact ⟨m, hm, e', he', hs', hres⟩
  · intro h
    refine findWhere_absent sc ctx (Cond.phone phone) t (fun r hr => ?_)
    rw [Bool.eq_false_iff]
    intro hc
    obtain ⟨e, he, hs⟩ := (collides_key sc r.phone phone).mp hc
    rw [h r hr e he] at hs
    exact Bool.noConfusion hs
  · rintro ⟨r, hr, e, he, hs⟩
    obtain ⟨m, hm, hc, hres⟩ := findWhere_present sc ctx (Cond.phone phone) t
      ⟨r, hr, (collides_key sc r.phone phone).mpr ⟨e, he, hs⟩⟩
    obtain ⟨e', he', hs'⟩ := (collides_key sc m.phone phone).mp hc
    rw [toUser_columns] at hres
    exact ⟨m, hm, e', he', hs', hres⟩
  · intro h
    refine findWhere_absent sc ctx (Cond.wechat_open_id openID) t (fun r hr => ?_)
    rw [Bool.eq_false_iff]
    intro hc
    obtain ⟨e, he, hs⟩ := (collides_key sc r.wechat_open_id openID).mp hc
    rw [h r hr e he] at hs
    exact Bool.noConfusion hs
  · rintro ⟨r, hr, e, he, hs⟩
    obtain ⟨m, hm, hc, hres⟩ := findWhere_present sc ctx (Cond.wechat_open_id openID) t
      ⟨r, hr, (collides_key sc r.wechat_open_id openID).mpr ⟨e, he, hs⟩⟩
    obtain ⟨e', he', hs'⟩ := (collides_key sc m.wechat_open_id openID).mp hc
    rw [toUser_columns] at hres
    exact ⟨m, hm, e', he', hs', hres⟩


/-- C6, amended, at inputs, on the table holding `alice` (key 1) and `carol` (key 2). Under
a binary collation the email of `alice` in another letter case, a phone with a trailing
blank and an empty open id are not found, nor is a key never inserted; under the
case-insensitive collation the exact email is found, and so is the key 2. -/
theorem lookup_contract_witness :
    (userDAO binarySchema).FindByEmail ctx0 "A@x.com" tableAliceCarol
        = (Except.ok (User.zero, some ErrUserNotFound), tableAliceCarol)
      ∧ (userDAO binarySchema).FindByID ctx0 9 tableAliceCarol
        = (Except.ok (User.zero, some ErrUserNotFound), tableAliceCarol)
      ∧ (userDAO binarySchema).FindByPhone ctx0 "111 " tableAliceCarol
        = (Except.ok (User.zero, some ErrUserNotFound), tableAliceCarol)
      ∧ (userDAO binarySchema).FindByWechat ctx0 "" tableAliceCarol
        = (Except.ok (User.zero, some ErrUserNotFound), tableAliceCarol)
      ∧ (∃ r ∈ tableAliceCarol.rows, ∃ e ∈ r.email, defaultSchema.same e "a@x.com" = true
          ∧ (userDAO defaultSchema).FindByEmail ctx0 "a@x.com" tableAliceCarol
            = (Except.ok
                ({ Id := r.id,
                   Email := r.email.elim { String := "", Valid := false }
                     (fun v => { String := v, Valid := true }),
                   Phone := r.phone.elim { String := "", Valid := false }
                     (fun v => { String := v, Valid := true }),
                   Name := r.name.elim { String := "", Valid := false }
                     (fun v => { String := v, Valid := true }),
                   Birthday := r.birthday, Resume := r.resume, Password := r.password,
                   WechatUnionID := r.wechat_union_id.elim { String := "", Valid := false }
                     (fun v => { String := v, Valid := true }),
                   WechatOpenID := r.wechat_open_id.elim { String := "", Valid := false }
                     (fun v => { String := v, Valid := true }),
                   Ctime := r.ctime, Utime := r.utime }, none), tableAliceCarol))
      ∧ (∃ r ∈ tableAliceCarol.rows, r.id = 2
          ∧ (userDAO defaultSchema).FindByID ctx0 2 tableAliceCarol
            = (Except.ok
                ({ Id := r.id,
                   Email := r.email.elim { String := "", Valid := false }
                     (fun v => { String := v, Valid := true }),
                   Phone := r.phone.elim { String := "", Valid := false }
                     (fun v => { String := v, Valid := true }),
                   Name := r.name.elim { String := "", Valid := false }
                     (fun v => { String := v, Valid := true }),
                   Birthday := r.birthday, Resume := r.resume, Password := r.password,
                   WechatUnionID := r.wechat_union_id.elim { String := "", Valid := false }
                     (fun v => { String := v, Valid := true }),
                   WechatOpenID := r.wechat_open_id.elim { String := "", Valid := false }
                     (fun v => { String := v, Valid := true }),
                   Ctime := r.ctime, Utime := r.utime }, none), tableAliceCarol)) :=
  ⟨(lookup_contract binarySchema ctx0 tableAliceCarol 9 "A@x.com" "111 " "").2.1.1 (by decide),
   (lookup_contract binarySchema ctx0 tableAliceCarol 9 "A@x.com" "111 " "").1.1 (by decide),
   (lookup_contract binarySchema ctx0 tableAliceCarol 9 "A@x.com" "111 " "").2.2.1.1
      (by decide),
   (lookup_contract binarySchema ctx0 tableAliceCarol 9 "A@x.com" "111 " "").2.2.2.1
      (by decide),
   (lookup_contract defaultSchema ctx0 tableAliceCarol 2 "a@x.com" "111" "").2.1.2 (by decide),
   (lookup_contract defaultSchema ctx0 tableAliceCarol 2 "a@x.com" "111" "").1.2 (by decide)⟩

/-! ## `Insert` on the table -/

/-- A value that is NULL or that the server takes for different from the stored one does
not collide with it. -/
theorem collides_eq_false (sc : Schema) (n : NullString) (b : Option String)
    (h : ∀ e ∈ b, n.Valid = true → sc.same n.String e = false) :
    collides sc (sqlValue n) b = false := by
  unfold collides sqlValue
  by_cases hv : n.Valid = true
  · cases b with
    | none => simp [hv]
    | some y => simpa [hv] using h y rfl hv
  · simp [hv]

/-- A value that is NULL or that the server accepts for its column fits it. -/
theorem fitsColumn_sqlValue (sc : Schema) (c : Column) (n : NullString)
    (h : n.Valid = true → sc.fits c n.String = true) : fitsColumn sc c (sqlValue n) = true := by
  unfold fitsColumn sqlValue
  by_cases hv : n.Valid = true
  · simpa [hv] using h hv
  · simp [hv]

/-- C9, as stated, fails. `Insert` returns the error and nothing else: the same record
inserted into the empty table and into a table that holds `carol` gives the same returned
value, nil, while the store generates the key 1 in one case and 3 in the other. And unused
email, phone, name and open id do not suffice for success: a record that brings the key 1
itself is rejected when a row of key 1 exists, a record is rejected when the counter has
reached the largest key and that key is taken, both reported as `ErrUserDuplicateEmail`,
and a record whose name has 192 characters is rejected too. -/
theorem Insert_returns_only_error :
    ((userDAO defaultSchema).Insert ctx0 1000 alice noRows).1 = Except.ok none
      ∧ ((userDAO defaultSchema).Insert ctx0 1000 alice tableCarol).1 = Except.ok none
      ∧ ((userDAO defaultSchema).Insert ctx0 1000 alice noRows).2 = tableAlice
      ∧ ((userDAO defaultSchema).Insert ctx0 1000 alice tableCarol).2
          = { rows := [carolRow, { aliceRow with id := 3 }], autoInc := 4 }
      ∧ (¬ ∃ generated : Except Panic (Option Error) → Int,
            generated ((userDAO defaultSchema).Insert ctx0 1000 alice noRows).1 = 1
              ∧ generated ((userDAO defaultSchema).Insert ctx0 1000 alice tableCarol).1 = 3)
      ∧ (userDAO defaultSchema).Insert ctx0 1500 { carol with Id := 1 } tableAlice
          = (Except.ok (some Error.ErrUserDuplicateEmail), tableAlice)
      ∧ ((userDAO defaultSchema).Insert ctx0 1500 carol
            { rows := [{ aliceRow with id := int64Max }], autoInc := int64Max }).1
          = Except.ok (some Error.ErrUserDuplicateEmail)
      ∧ ((userDAO defaultSchema).Insert ctx0 1500
            { carol with Name := { String := String.mk (List.replicate 192 'n'), Valid := true } }
            tableAlice).1
          ≠ Except.ok none := by
  have h1 : ((userDAO defaultSchema).Insert ctx0 1000 alice noRows).1 = Except.ok none := by
    decide
  have h2 : ((userDAO defaultSchema).Insert ctx0 1000 alice tableCarol).1 = Except.ok none := by
    decide
  have h8 : ((userDAO defaultSchema).Insert ctx0 1500
      { carol with Name := { String := String.mk (List.replicate 192 'n'), Valid := true } }
      tableAlice).1
      = Except.ok (some (Error.stmt (dataTooLong "name"))) := rfl
  refine ⟨h1, h2, by decide, by decide, ?_, by decide, by decide, ?_⟩
  · rintro ⟨generated, g1, g3⟩
    rw [h1] at g1
    rw [h2, g1] at g3
    exact absurd g3 (by decide)
  · rw [h8]
    decide

/-- C9, amended. Whatever the collation and the column sizes of the table: a record whose
`Id` is not set, whose strings fit their columns, and whose email, phone, name and open id
are each NULL or equal, as the server compares them, to no stored value, inserted when the
auto-increment counter offers a key below the largest `int64` that no row holds, is
accepted. `Insert` returns nil and nothing else; the table gains one row, the record as
supplied under the key the counter offered and with creation and modification time both
equal to the clock reading, and the counter moves on. The key is not part of what `Insert`
returns. -/
theorem Insert_unused_succeeds (sc : Schema) (ctx : Context) (now : Int) (u : User) (t : Table)
    (hid : u.Id = 0)
    (hcounter : 1 ≤ t.autoInc ∧ t.autoInc < int64Max)
    (hkey : ∀ r ∈ t.rows, r.id ≠ t.autoInc)
    (hfits : (u.Email.Valid = true → sc.fits Column.email u.Email.String = true)
      ∧ (u.Phone.Valid = true → sc.fits Column.phone u.Phone.String = true)
      ∧ (u.Name.Valid = true → sc.fits Column.name u.Name.String = true)
      ∧ sc.fits Column.birthday u.Birthday = true
      ∧ sc.fits Column.resume u.Resume = true
      ∧ sc.fits Column.password u.Password = true
      ∧ (u.WechatUnionID.Valid = true →
          sc.fits Column.wechat_union_id u.WechatUnionID.String = true)
      ∧ (u.WechatOpenID.Valid = true →
          sc.fits Column.wechat_open_id u.WechatOpenID.String = true))
    (hemail : ∀ r ∈ t.rows, ∀ e ∈ r.email, u.Email.Valid = true →
      sc.same u.Email.String e = false)
    (hphone : ∀ r ∈ t.rows, ∀ e ∈ r.phone, u.Phone.Valid = true →
      sc.same u.Phone.String e = false)
    (hname : ∀ r ∈ t.rows, ∀ e ∈ r.name, u.Name.Valid = true →
      sc.same u.Name.String e = false)
    (hopen : ∀ r ∈ t.rows, ∀ e ∈ r.wechat_open_id, u.WechatOpenID.Valid = true →
      sc.same u.WechatOpenID.String e = false) :
    (userDAO sc).Insert ctx now u t
      = (Except.ok none,
          { rows := t.rows ++
              [{ id := t.autoInc,
                 email := if u.Email.Valid = true then some u.Email.String else none,
                 phone := if u.Phone.Valid = true then some u.Phone.String else none,
                 name := if u.Name.Valid = true then some u.Name.String else none,
                 birthday := u.Birthday, resume := u.Resume, password := u.Password,
                 wechat_union_id :=
                   if u.WechatUnionID.Valid = true then some u.WechatUnionID.String else none,
                 wechat_open_id :=
                   if u.WechatOpenID.Valid = true then some u.WechatOpenID.String else none,
                 ctime := now, utime := now }],
            autoInc := t.autoInc + 1 }) := by
  obtain ⟨f1, f2, f3, f4, f5, f6, f7, f8⟩ := hfits
  have hmin : min t.autoInc int64Max = t.autoInc := min_eq_left (le_of_lt hcounter.2)
  have hmis : misfit sc
      { id := t.autoInc, email := sqlValue u.Email, phone := sqlValue u.Phone,
        name := sqlValue u.Name, birthday := u.Birthday, resume := u.Resume,
        password := u.Password, wechat_union_id := sqlValue u.WechatUnionID,
        wechat_open_id := sqlValue u.WechatOpenID, ctime := now, utime := now } = none := by
    simp [misfit, fitsColumn_sqlValue sc _ _ f1, fitsColumn_sqlValue sc _ _ f2,
      fitsColumn_sqlValue sc _ _ f3, f4, f5, f6, fitsColumn_sqlValue sc _ _ f7,
      fitsColumn_sqlValue sc _ _ f8]
  have hnone : t.rows.findSome? (violatedKey sc
      { id := t.autoInc, email := sqlValue u.Email, phone := sqlValue u.Phone,
        name := sqlValue u.Name, birthday := u.Birthday, resume := u.Resume,
        password := u.Password, wechat_union_id := sqlValue u.WechatUnionID,
        wechat_open_id := sqlValue u.WechatOpenID, ctime := now, utime := now }) = none := by
    rw [List.findSome?_eq_none_iff]
    intro r hr
    have h0 : ¬ (t.autoInc = r.id) := fun hc => hkey r hr hc.symm
    simp [violatedKey, h0, collides_eq_false sc _ _ (hemail r hr),
      collides_eq_false sc _ _ (hphone r hr), collides_eq_false sc _ _ (hname r hr),
      collides_eq_false sc _ _ (hopen r hr)]
  have hnext : max t.autoInc (min (t.autoInc + 1) int64Max) = t.autoInc + 1 := by
    have h1 : min (t.autoInc + 1) int64Max = t.autoInc + 1 := min_eq_left (by omega)
    rw [h1]
    exact max_eq_right (by omega)
  apply Insert_of_nil (gormDB sc) ctx now u t
    { u with Utime := now, Ctime := now, Id := t.autoInc }
  show gormCreate sc { u with Utime := now, Ctime := now } t = _
  simp only [gormCreate, User.toRow, hid, beq_self_eq_true, if_true, hmin, hmis, hnone, hnext]
  rfl

/-- C9, amended, at an input: `alice` inserted at time 1000 into the table holding `carol`
alone, whose counter offers the key 3, is stored under the key 3 with both timestamps
1000. -/
theorem Insert_unused_succeeds_witness :
    (userDAO defaultSchema).Insert ctx0 1000 alice tableCarol
        = (Except.ok none,
            { rows := [carolRow, { aliceRow with id := 3, ctime := 1000, utime := 1000 }],
              autoInc := 4 }) :=
  Insert_unused_succeeds defaultSchema ctx0 1000 alice tableCarol (by decide) (by decide)
    (by decide) (by decide) (by decide) (by decide) (by decide) (by decide)

end dao
